import Mathlib

/-!
Verification of the meal.mind expiry-aware inventory pipeline.

The definitions below are a shallow embedding of the TypeScript utility
layer of the repository (`src/utils/helpers.ts`, `src/utils/api.ts`, and
the storage module).  JavaScript timestamps (milliseconds since the epoch)
are modelled as integers; `Date.setHours(0,0,0,0)` is modelled as flooring
a timestamp to the enclosing multiple of one day in milliseconds;
`Math.ceil` of an exact division is modelled as integer ceiling division.
JavaScript `x || d` default expressions are modelled by functions that map
the falsy values of the concerned type (absent, 0, the empty string) to
the default.
-/

namespace MealMind

/-- Milliseconds in one day, the constant `1000 * 60 * 60 * 24`. -/
def msPerDay : ℤ := 86400000

/-- Ceiling division of integers, modelling `Math.ceil(a / b)` for `b > 0`. -/
def jsCeilDiv (a b : ℤ) : ℤ := -((-a).fdiv b)

/-- Model of `date.setHours(0, 0, 0, 0)`: floor a millisecond timestamp to
midnight of its day. -/
def normMidnight (t : ℤ) : ℤ := msPerDay * (t.fdiv msPerDay)

/-- The `ExpiryStatus` union type of `src/types`. -/
inductive ExpiryStatus
  | fresh
  | warning
  | critical
  deriving DecidableEq, Repr

/-- `getDaysUntilExpiry` from `src/utils/helpers.ts`: normalize both the
current instant and the expiry timestamp to midnight, subtract, and take
the ceiling of the difference in days.  `nowMs` is the current instant
(`new Date()`), `expiryMs` the parsed expiry date. -/
def getDaysUntilExpiry (nowMs expiryMs : ℤ) : ℤ :=
  jsCeilDiv (normMidnight expiryMs - normMidnight nowMs) msPerDay

/-- `getExpiryStatus` from `src/utils/helpers.ts`: the same day computation
followed by the fixed thresholds 3 and 7. -/
def getExpiryStatus (nowMs expiryMs : ℤ) : ExpiryStatus :=
  let diffDays := jsCeilDiv (normMidnight expiryMs - normMidnight nowMs) msPerDay
  if diffDays ≤ 3 then .critical
  else if diffDays ≤ 7 then .warning
  else .fresh

/-- The `Product` interface of `src/types`.  Timestamps are integer
milliseconds; `category` is a plain string because the TypeScript union
type is erased at runtime and external input can carry any string. -/
structure Product where
  id : String
  name : String
  quantity : String
  unit : String
  expiryDate : ℤ
  category : String
  addedAt : ℤ
  imageUri : Option String
  confidence : Option ℚ
  deriving DecidableEq, Repr

/-- `getExpiringProducts` from `src/utils/helpers.ts`: keep the products
whose day count is at most `days` and at least 0. -/
def getExpiringProducts (nowMs : ℤ) (ps : List Product) (days : ℤ) : List Product :=
  ps.filter fun p =>
    decide (getDaysUntilExpiry nowMs p.expiryDate ≤ days ∧
      0 ≤ getDaysUntilExpiry nowMs p.expiryDate)

/-- The `expiringProducts` list computed inside `generateRecipeWithGemini`
(`src/utils/api.ts`): the names of the products whose expiry timestamp is
at most 3 ceiling-days after the current instant `Date.now()` (note: the
raw instant, not the midnight-normalized one used by `getExpiryStatus`). -/
def recipeRequestExpiringNames (nowMs : ℤ) (ps : List Product) : List String :=
  (ps.filter fun p => decide (jsCeilDiv (p.expiryDate - nowMs) msPerDay ≤ 3)).map
    Product.name

/-- The comparator of `sortProductsByExpiry`: ascending day count. -/
def expiryLE (nowMs : ℤ) (a b : Product) : Prop :=
  getDaysUntilExpiry nowMs a.expiryDate ≤ getDaysUntilExpiry nowMs b.expiryDate

instance (nowMs : ℤ) : DecidableRel (expiryLE nowMs) := fun _ _ => Int.decLe _ _

instance (nowMs : ℤ) : IsTotal Product (expiryLE nowMs) := ⟨fun _ _ => Int.le_total _ _⟩

instance (nowMs : ℤ) : IsTrans Product (expiryLE nowMs) := ⟨fun _ _ _ => Int.le_trans⟩

/-- `sortProductsByExpiry` from `src/utils/helpers.ts`: the ECMAScript
`Array.prototype.sort` with comparator `daysA - daysB` is a stable
ascending sort by day count, embedded as a stable insertion sort. -/
def sortProductsByExpiry (nowMs : ℤ) (ps : List Product) : List Product :=
  List.insertionSort (expiryLE nowMs) ps

/-- The `RecipeIngredient` interface of `src/types`. -/
structure RecipeIngredient where
  name : String
  amount : String
  unit : String
  available : Bool
  deriving DecidableEq, Repr

/-- The `Recipe` interface of `src/types`.  `difficulty` is a plain string
at runtime; numeric fields are integers as used by the app. -/
structure Recipe where
  id : String
  title : String
  description : String
  imageUri : Option String
  cookTime : ℤ
  servings : ℤ
  difficulty : String
  ingredients : List RecipeIngredient
  instructions : List String
  usesExpiringProducts : List String
  rating : Option ℤ
  savedAt : Option String
  generatedAt : String
  deriving DecidableEq, Repr

/-- `addToRecipeHistory` from the storage module: drop any entry with the
same id, prepend the new recipe, keep the most recent 50. -/
def addToRecipeHistory (r : Recipe) (history : List Recipe) : List Recipe :=
  (r :: history.filter fun x => decide (x.id ≠ r.id)).take 50

/-- `saveRecipe` from the storage module: no-op when an entry with the same
id exists, otherwise prepend a copy carrying the save timestamp. -/
def saveRecipe (savedAtTs : String) (r : Recipe) (saved : List Recipe) : List Recipe :=
  if saved.any fun x => decide (x.id = r.id) then saved
  else { r with savedAt := some savedAtTs } :: saved

/-- Number of entries of a collection carrying a given recipe id. -/
def countId (i : String) (l : List Recipe) : ℕ :=
  l.countP fun x => decide (x.id = i)

/-- A minimal recipe with id `a`. -/
def recipeA : Recipe :=
  ⟨"a", "Soup", "", none, 30, 4, "medium", [], [], [], none, none, "t0"⟩

/-- A second recipe carrying the same id `a`. -/
def recipeA2 : Recipe :=
  ⟨"a", "Stew", "", none, 40, 2, "easy", [], [], [], none, none, "t1"⟩

/-- A recipe with id `b`. -/
def recipeB : Recipe :=
  ⟨"b", "Plov", "", none, 50, 6, "hard", [], [], [], none, none, "t2"⟩

/-- A product expiring five days from instant 0 (a midnight). -/
def productInFiveDays : Product :=
  ⟨"p5", "Milk", "1", "l", 5 * 86400000, "dairy", 0, none, none⟩

/-- A product expiring two days from instant 0. -/
def productInTwoDays : Product :=
  ⟨"p2", "Bread", "1", "pc", 2 * 86400000, "bakery", 0, none, none⟩

/-- A second product with the same expiry date as `productInTwoDays`. -/
def productInTwoDaysToo : Product :=
  ⟨"p2b", "Buns", "2", "pc", 2 * 86400000, "bakery", 0, none, none⟩

/-- The ten-member category list of the `ProductCategory` union type. -/
def validCategories : List String :=
  ["dairy", "meat", "vegetables", "fruits", "grains", "beverages", "condiments",
   "frozen", "bakery", "other"]

/-- The category expression of `analyzeImageWithGemini` in `src/utils/api.ts`
(the cast of `p.category` defaulted to `other`): only the falsy raw values
(absent, empty string) fall back to `other`; the TypeScript cast performs
no runtime check, so any other string passes through unchanged. -/
def scannedProductCategory (raw : Option String) : String :=
  match raw with
  | none => "other"
  | some s => if s = "" then "other" else s

/-- The shelf-life lookup `getDefaultExpiryDays` of `src/utils/helpers.ts`:
a record indexed by the ten categories, so looking up any other string
yields no value (`undefined` at runtime). -/
def getDefaultExpiryDays (category : String) : Option ℤ :=
  if category = "dairy" then some 7
  else if category = "meat" then some 5
  else if category = "vegetables" then some 7
  else if category = "fruits" then some 7
  else if category = "grains" then some 180
  else if category = "beverages" then some 30
  else if category = "condiments" then some 90
  else if category = "frozen" then some 90
  else if category = "bakery" then some 5
  else if category = "other" then some 14
  else none

/-- The JSON fields that `generateRecipeWithGemini` reads out of the
external response; `none` models an absent or null field. -/
structure ParsedRecipe where
  title : Option String
  description : Option String
  cookTime : Option ℤ
  servings : Option ℤ
  difficulty : Option String
  ingredients : Option (List RecipeIngredient)
  instructions : Option (List String)
  usesExpiringProducts : Option (List String)
  deriving DecidableEq, Repr

/-- JavaScript `v || d` on numbers: absent and 0 are falsy. -/
def jsOrInt (v : Option ℤ) (d : ℤ) : ℤ :=
  match v with
  | none => d
  | some x => if x = 0 then d else x

/-- JavaScript `v || d` on strings: absent and the empty string are falsy. -/
def jsOrStr (v : Option String) (d : String) : String :=
  match v with
  | none => d
  | some x => if x = "" then d else x

/-- JavaScript `v || d` on arrays: only an absent array is falsy (an empty
array is truthy and kept). -/
def jsOrList {α : Type} (v : Option (List α)) (d : List α) : List α := v.getD d

/-- JavaScript `v || d` on rationals, for the guest-menu cost fields. -/
def jsOrRat (v : Option ℚ) (d : ℚ) : ℚ :=
  match v with
  | none => d
  | some x => if x = 0 then d else x

/-- The `preferences` argument of `generateRecipeWithGemini`. -/
structure RecipePrefs where
  servings : Option ℤ
  maxTime : Option ℤ
  difficulty : Option String
  deriving DecidableEq, Repr

/-- The `Recipe` that `generateRecipeWithGemini` builds from a parsed
response: every field defaulted with `||`, with `usesExpiringProducts`
falling back to the expiring-name list computed at request time.  The
`preferences` argument only shapes the outgoing prompt; the construction
does not read it. -/
def generateRecipeResult (newId genAt : String) (nowMs : ℤ) (products : List Product)
    (prefs : RecipePrefs) (parsed : ParsedRecipe) : Recipe :=
  let _ := prefs
  let expiring := recipeRequestExpiringNames nowMs products
  { id := newId
    title := jsOrStr parsed.title "Новый рецепт"
    description := jsOrStr parsed.description ""
    imageUri := none
    cookTime := jsOrInt parsed.cookTime 30
    servings := jsOrInt parsed.servings 4
    difficulty := jsOrStr parsed.difficulty "medium"
    ingredients := jsOrList parsed.ingredients []
    instructions := jsOrList parsed.instructions []
    usesExpiringProducts := jsOrList parsed.usesExpiringProducts expiring
    rating := none
    savedAt := none
    generatedAt := genAt }

/-- The `budget` tier argument of `generateGuestMenuWithGemini`. -/
inductive BudgetTier
  | economy
  | standard
  | premium
  deriving DecidableEq, Repr

/-- The per-person cost bands of `generateGuestMenuWithGemini`. -/
def budgetRange : BudgetTier → ℤ × ℤ
  | .economy => (650, 1100)
  | .standard => (1100, 1800)
  | .premium => (1800, 3000)

/-- `targetCostPerPerson`, the midpoint of the chosen band. -/
def targetCostPerPerson (b : BudgetTier) : ℚ :=
  (((budgetRange b).1 : ℚ) + ((budgetRange b).2 : ℚ)) / 2

/-- The `totalCost` and `perPersonCost` fields of the result of
`generateGuestMenuWithGemini`: each defaults with `||` to the budget
estimate computed before the request (`totalBudget` and
`targetCostPerPerson` respectively). -/
def guestMenuCosts (b : BudgetTier) (guestCount : ℚ)
    (parsedTotal parsedPer : Option ℚ) : ℚ × ℚ :=
  let target := targetCostPerPerson b
  let totalBudget := target * guestCount
  (jsOrRat parsedTotal totalBudget, jsOrRat parsedPer target)

/-- The `UserStats` interface of `src/types`. -/
structure UserStats where
  moneySaved : ℚ
  timeSaved : ℚ
  wastePrevented : ℚ
  recipesGenerated : ℚ
  productsScanned : ℚ
  lastUpdated : String
  deriving DecidableEq, Repr

/-- The five numeric statistic keys accepted by `incrementStat`. -/
inductive StatKey
  | moneySaved
  | timeSaved
  | wastePrevented
  | recipesGenerated
  | productsScanned
  deriving DecidableEq, Repr

/-- Read the numeric field named by a key. -/
def getStat (k : StatKey) (s : UserStats) : ℚ :=
  match k with
  | .moneySaved => s.moneySaved
  | .timeSaved => s.timeSaved
  | .wastePrevented => s.wastePrevented
  | .recipesGenerated => s.recipesGenerated
  | .productsScanned => s.productsScanned

/-- A partial update object over the numeric fields (the spread in
`updateUserStats` overwrites `lastUpdated` afterwards in any case). -/
structure StatsUpdate where
  moneySaved : Option ℚ
  timeSaved : Option ℚ
  wastePrevented : Option ℚ
  recipesGenerated : Option ℚ
  productsScanned : Option ℚ
  deriving DecidableEq, Repr

/-- `updateUserStats` from the storage module: spread the stored snapshot,
spread the update, then set `lastUpdated` to the current time. -/
def updateUserStats (u : StatsUpdate) (now : String) (s : UserStats) : UserStats :=
  { moneySaved := u.moneySaved.getD s.moneySaved
    timeSaved := u.timeSaved.getD s.timeSaved
    wastePrevented := u.wastePrevented.getD s.wastePrevented
    recipesGenerated := u.recipesGenerated.getD s.recipesGenerated
    productsScanned := u.productsScanned.getD s.productsScanned
    lastUpdated := now }

/-- The computed single-field object passed by `incrementStat`. -/
def singleStatUpdate (k : StatKey) (v : ℚ) : StatsUpdate :=
  match k with
  | .moneySaved => ⟨some v, none, none, none, none⟩
  | .timeSaved => ⟨none, some v, none, none, none⟩
  | .wastePrevented => ⟨none, none, some v, none, none⟩
  | .recipesGenerated => ⟨none, none, none, some v, none⟩
  | .productsScanned => ⟨none, none, none, none, some v⟩

/-- `incrementStat` from the storage module: read the snapshot, add
`amount` to the named field, write back through `updateUserStats`. -/
def incrementStat (k : StatKey) (amount : ℚ) (now : String) (s : UserStats) : UserStats :=
  updateUserStats (singleStatUpdate k (getStat k s + amount)) now s

/-- The `defaultStats` baseline of the storage module. -/
def defaultStats (now : String) : UserStats :=
  ⟨2450, 180, 12.5, 8, 47, now⟩

end MealMind

namespace MealMind

/-- C1: `getExpiryStatus` returns `critical` iff `getDaysUntilExpiry` is at
most 3, `warning` iff it is between 4 and 7, and `fresh` iff it is at least
8; both functions normalize to midnight and ceil-divide identically. -/
theorem getExpiryStatus_iff_getDaysUntilExpiry (nowMs expiryMs : ℤ) :
    (getExpiryStatus nowMs expiryMs = .critical ↔ getDaysUntilExpiry nowMs expiryMs ≤ 3) ∧
    (getExpiryStatus nowMs expiryMs = .warning ↔
      4 ≤ getDaysUntilExpiry nowMs expiryMs ∧ getDaysUntilExpiry nowMs expiryMs ≤ 7) ∧
    (getExpiryStatus nowMs expiryMs = .fresh ↔ 8 ≤ getDaysUntilExpiry nowMs expiryMs) := by
  simp only [getExpiryStatus, getDaysUntilExpiry]
  split_ifs with h1 h2 <;>
    refine ⟨?_, ?_, ?_⟩ <;> simp_all <;> omega

/-- C2 counterexample: a candidate expiring in five days is classified
`warning` (not `fresh`) by `getExpiryStatus`, yet its name is absent from
the should-be-prioritized list built by `generateRecipeWithGemini`, which
keeps only candidates within 3 ceiling-days. -/
theorem recipeRequest_misses_warning_product :
    getExpiryStatus 0 productInFiveDays.expiryDate ≠ .fresh ∧
    productInFiveDays.name ∉ recipeRequestExpiringNames 0 [productInFiveDays] := by
  decide

/-- C2 (amended): a name is flagged as should-be-prioritized iff some
candidate bears that name and its expiry timestamp is at most 3
ceiling-days after the current instant; when the instant and an expiry
timestamp are midnight-aligned, that cutoff coincides with the `critical`
tier (not with "not `fresh`": `warning` candidates are excluded). -/
theorem recipeRequestExpiringNames_spec (nowMs : ℤ) (ps : List Product) (n : String) :
    (n ∈ recipeRequestExpiringNames nowMs ps ↔
      ∃ p ∈ ps, p.name = n ∧ jsCeilDiv (p.expiryDate - nowMs) msPerDay ≤ 3) ∧
    (∀ e : ℤ, normMidnight nowMs = nowMs → normMidnight e = e →
      (jsCeilDiv (e - nowMs) msPerDay ≤ 3 ↔ getExpiryStatus nowMs e = .critical)) := by
  constructor
  · simp only [recipeRequestExpiringNames, List.mem_map, List.mem_filter,
      decide_eq_true_eq]
    constructor
    · rintro ⟨p, ⟨hp, hd⟩, hn⟩
      exact ⟨p, hp, hn, hd⟩
    · rintro ⟨p, hp, hn, hd⟩
      exact ⟨p, ⟨hp, hd⟩, hn⟩
  · intro e hnow he
    simp only [getExpiryStatus, hnow, he]
    split_ifs with h <;> simp_all

/-- C2 witness: instantiating the amended statement at a product expiring
in two days from instant 0. -/
theorem recipeRequestExpiringNames_spec_witness :
    ("Bread" ∈ recipeRequestExpiringNames 0 [productInTwoDays] ↔
      ∃ p ∈ [productInTwoDays], p.name = "Bread" ∧
        jsCeilDiv (p.expiryDate - 0) msPerDay ≤ 3) ∧
    (jsCeilDiv (2 * 86400000 - 0) msPerDay ≤ 3 ↔ getExpiryStatus 0 (2 * 86400000) = .critical) :=
  ⟨(recipeRequestExpiringNames_spec 0 [productInTwoDays] "Bread").1,
   (recipeRequestExpiringNames_spec 0 [productInTwoDays] "Bread").2 (2 * 86400000)
     (by decide) (by decide)⟩

/-- C3: every product selected by `getExpiringProducts` with window 3 has a
day count between 0 and 3; expired products and products further out are
never selected. -/
theorem getExpiringProducts_bounds (nowMs : ℤ) (ps : List Product) (p : Product)
    (hp : p ∈ getExpiringProducts nowMs ps 3) :
    0 ≤ getDaysUntilExpiry nowMs p.expiryDate ∧
      getDaysUntilExpiry nowMs p.expiryDate ≤ 3 := by
  simp only [getExpiringProducts, List.mem_filter, decide_eq_true_eq] at hp
  exact ⟨hp.2.2, hp.2.1⟩

/-- C3 witness: the two-day product is selected and satisfies the bounds. -/
theorem getExpiringProducts_bounds_witness :
    0 ≤ getDaysUntilExpiry 0 productInTwoDays.expiryDate ∧
      getDaysUntilExpiry 0 productInTwoDays.expiryDate ≤ 3 :=
  getExpiringProducts_bounds 0 [productInTwoDays] productInTwoDays (by decide)

/-- One `addToRecipeHistory` call preserves duplicate-freedom of ids. -/
theorem addToRecipeHistory_nodup_step (r : Recipe) (h : List Recipe)
    (hn : (h.map Recipe.id).Nodup) :
    ((addToRecipeHistory r h).map Recipe.id).Nodup := by
  have hsub : List.Sublist (h.filter fun x => decide (x.id ≠ r.id)) h :=
    List.filter_sublist h
  have h1 : ((h.filter fun x => decide (x.id ≠ r.id)).map Recipe.id).Nodup :=
    hn.sublist (hsub.map _)
  have h2 : r.id ∉ (h.filter fun x => decide (x.id ≠ r.id)).map Recipe.id := by
    intro hmem
    obtain ⟨x, hx, hxid⟩ := List.mem_map.mp hmem
    have hne := (List.mem_filter.mp hx).2
    simp [hxid] at hne
  have h3 : ((r :: h.filter fun x => decide (x.id ≠ r.id)).map Recipe.id).Nodup :=
    List.nodup_cons.mpr ⟨h2, h1⟩
  exact h3.sublist ((List.take_sublist 50 _).map Recipe.id)

/-- A fold of `addToRecipeHistory` calls preserves duplicate-freedom. -/
theorem addToRecipeHistory_nodup_fold (rs : List Recipe) (h0 : List Recipe)
    (hn : (h0.map Recipe.id).Nodup) :
    ((rs.foldl (fun h q => addToRecipeHistory q h) h0).map Recipe.id).Nodup := by
  induction rs generalizing h0 with
  | nil => exact hn
  | cons q qs ih => exact ih _ (addToRecipeHistory_nodup_step q h0 hn)

/-- C4 counterexample: starting from a history that already holds two
entries with the same id, a single `addToRecipeHistory` call for a fresh
id leaves both duplicates in place. -/
theorem addToRecipeHistory_dup_counterexample :
    ¬ ((addToRecipeHistory recipeB [recipeA, recipeA2]).map Recipe.id).Nodup := by
  decide

/-- C4 (amended): starting from a history whose ids are duplicate-free (as
every history the program itself builds is, e.g. the empty one), after each
`addToRecipeHistory` call the ids remain duplicate-free, the length is at
most 50, and the recipe of the last call is the head. -/
theorem addToRecipeHistory_invariants (h0 : List Recipe) (rs : List Recipe) (r : Recipe)
    (hn : (h0.map Recipe.id).Nodup) :
    (((rs ++ [r]).foldl (fun h q => addToRecipeHistory q h) h0).map Recipe.id).Nodup ∧
    ((rs ++ [r]).foldl (fun h q => addToRecipeHistory q h) h0).length ≤ 50 ∧
    ((rs ++ [r]).foldl (fun h q => addToRecipeHistory q h) h0).head? = some r := by
  rw [List.foldl_append]
  refine ⟨addToRecipeHistory_nodup_fold [r] _ (addToRecipeHistory_nodup_fold rs h0 hn),
    ?_, ?_⟩
  · exact List.length_take_le 50 (r :: (rs.foldl (fun h q => addToRecipeHistory q h) h0).filter
      fun x => decide (x.id ≠ r.id))
  · show (addToRecipeHistory r _).head? = some r
    rw [addToRecipeHistory, show (50 : ℕ) = 49 + 1 from rfl, List.take_succ_cons]
    rfl

/-- C4 witness: one call on the empty history. -/
theorem addToRecipeHistory_invariants_witness :
    ((([] ++ [recipeA]).foldl (fun h q => addToRecipeHistory q h) []).map Recipe.id).Nodup ∧
    (([] ++ [recipeA]).foldl (fun h q => addToRecipeHistory q h) []).length ≤ 50 ∧
    (([] ++ [recipeA]).foldl (fun h q => addToRecipeHistory q h) []).head? = some recipeA :=
  addToRecipeHistory_invariants [] [] recipeA (by decide)

/-- C5: `saveRecipe` is a no-op when the id is already present, prepends a
timestamped copy otherwise, is idempotent, and from any collection holding
at most one entry for the id, two saves leave exactly one entry for it. -/
theorem saveRecipe_idempotent (t1 t2 : String) (r : Recipe) (l : List Recipe) :
    ((∃ x ∈ l, x.id = r.id) → saveRecipe t1 r l = l) ∧
    ((∀ x ∈ l, x.id ≠ r.id) → saveRecipe t1 r l = { r with savedAt := some t1 } :: l) ∧
    saveRecipe t2 r (saveRecipe t1 r l) = saveRecipe t1 r l ∧
    (countId r.id l ≤ 1 → countId r.id (saveRecipe t2 r (saveRecipe t1 r l)) = 1) := by
  have hany : (l.any fun x => decide (x.id = r.id)) = true ↔ ∃ x ∈ l, x.id = r.id := by
    simp [List.any_eq_true]
  refine ⟨?_, ?_, ?_, ?_⟩
  · intro hex
    simp [saveRecipe, hany.mpr hex]
  · intro hall
    rw [saveRecipe, if_neg]
    simp only [List.any_eq_true, decide_eq_true_eq, not_exists, not_and]
    intro x hx
    exact hall x hx
  · by_cases hp : (l.any fun x => decide (x.id = r.id)) = true
    · simp [saveRecipe, hp]
    · have h1 : saveRecipe t1 r l = { r with savedAt := some t1 } :: l := by
        rw [saveRecipe, if_neg hp]
      rw [h1, saveRecipe, if_pos (by simp)]
  · intro hle
    by_cases hp : (l.any fun x => decide (x.id = r.id)) = true
    · have h1 : 0 < countId r.id l := by
        obtain ⟨x, hx, he⟩ := hany.mp hp
        exact List.countP_pos_iff.mpr ⟨x, hx, by simpa using he⟩
      simp only [saveRecipe, hp, if_true]
      omega
    · have h0 : countId r.id l = 0 := by
        rw [countId, List.countP_eq_zero]
        intro x hx
        simp only [decide_eq_true_eq]
        intro he
        exact hp (hany.mpr ⟨x, hx, he⟩)
      have h1 : saveRecipe t1 r l = { r with savedAt := some t1 } :: l := by
        rw [saveRecipe, if_neg hp]
      rw [h1, saveRecipe, if_pos (by simp), countId,
        List.countP_cons_of_pos _ _ (by simp)]
      rw [countId] at h0
      omega

/-- C5 witness: saving the same recipe twice into the empty collection. -/
theorem saveRecipe_idempotent_witness :
    saveRecipe "s1" recipeA [] = { recipeA with savedAt := some "s1" } :: [] ∧
    countId recipeA.id (saveRecipe "s2" recipeA (saveRecipe "s1" recipeA [])) = 1 :=
  ⟨(saveRecipe_idempotent "s1" "s2" recipeA []).2.1 (by simp),
   (saveRecipe_idempotent "s1" "s2" recipeA []).2.2.2 (by decide)⟩

/-- C9: `sortProductsByExpiry` sorts ascending by day count, is a
permutation of its input, and is stable: two products with identical
expiry dates keep their relative input order. -/
theorem sortProductsByExpiry_sorted_stable (nowMs : ℤ) (ps : List Product) :
    List.Sorted (expiryLE nowMs) (sortProductsByExpiry nowMs ps) ∧
    List.Perm (sortProductsByExpiry nowMs ps) ps ∧
    ∀ a b : Product, List.Sublist [a, b] ps → a.expiryDate = b.expiryDate →
      List.Sublist [a, b] (sortProductsByExpiry nowMs ps) := by
  refine ⟨List.sorted_insertionSort _ _, List.perm_insertionSort _ _, ?_⟩
  intro a b hsub heq
  exact List.pair_sublist_insertionSort (by simp [expiryLE, heq]) hsub

/-- C9 witness: the two equal-expiry products keep their order through the
sort. -/
theorem sortProductsByExpiry_sorted_stable_witness :
    List.Sublist [productInTwoDays, productInTwoDaysToo]
      (sortProductsByExpiry 0 [productInTwoDays, productInTwoDaysToo]) :=
  (sortProductsByExpiry_sorted_stable 0 [productInTwoDays, productInTwoDaysToo]).2.2
    productInTwoDays productInTwoDaysToo (List.Sublist.refl _) rfl

end MealMind

namespace MealMind

/-- C6: the category written by `analyzeImageWithGemini` for a recognized
product whose raw category is the unrecognized string `snacks` is `snacks`
itself, not `other`: the cast performs no runtime coercion, the value falls
outside the fixed ten-member enumeration, and the shelf-life lookup the
same code path performs on it yields no value. -/
theorem scannedProductCategory_not_coerced :
    scannedProductCategory (some "snacks") = "snacks" ∧
    "snacks" ∉ validCategories ∧
    getDefaultExpiryDays (scannedProductCategory (some "snacks")) = none := by
  decide

/-- C7 counterexample: with requested servings 2 and a response omitting
`servings`, the built recipe has 4 servings, not the requested 2. -/
theorem generateRecipeResult_servings_counterexample :
    (generateRecipeResult "id1" "g1" 0 [] ⟨some 2, none, none⟩
      ⟨none, none, none, none, none, none, none, none⟩).servings = 4 ∧
    (4 : ℤ) ≠ 2 := by
  exact ⟨rfl, by decide⟩

/-- C7 (amended): when the embedded JSON omits servings, cookTime,
difficulty, ingredients, instructions and `usesExpiringProducts`, the built
recipe has cookTime 30, servings 4 (regardless of the requested servings),
difficulty `medium`, empty ingredient and instruction lists, and
`usesExpiringProducts` equal to the prioritized-name list computed during
request construction. -/
theorem generateRecipeResult_defaults (newId genAt : String) (nowMs : ℤ)
    (products : List Product) (prefs : RecipePrefs) (t d : Option String) :
    (generateRecipeResult newId genAt nowMs products prefs
      ⟨t, d, none, none, none, none, none, none⟩).cookTime = 30 ∧
    (generateRecipeResult newId genAt nowMs products prefs
      ⟨t, d, none, none, none, none, none, none⟩).servings = 4 ∧
    (generateRecipeResult newId genAt nowMs products prefs
      ⟨t, d, none, none, none, none, none, none⟩).difficulty = "medium" ∧
    (generateRecipeResult newId genAt nowMs products prefs
      ⟨t, d, none, none, none, none, none, none⟩).ingredients = [] ∧
    (generateRecipeResult newId genAt nowMs products prefs
      ⟨t, d, none, none, none, none, none, none⟩).instructions = [] ∧
    (generateRecipeResult newId genAt nowMs products prefs
      ⟨t, d, none, none, none, none, none, none⟩).usesExpiringProducts =
      recipeRequestExpiringNames nowMs products :=
  ⟨rfl, rfl, rfl, rfl, rfl, rfl⟩

/-- C8 counterexample: economy tier, 4 guests, a response carrying
totalCost 4000 but omitting perPersonCost: the result keeps perPersonCost
875 (the tier midpoint), while totalCost divided by the guest count is
1000. -/
theorem guestMenuCosts_counterexample :
    (guestMenuCosts .economy 4 (some 4000) none).2 = 875 ∧
    (guestMenuCosts .economy 4 (some 4000) none).1 / 4 = 1000 ∧
    (875 : ℚ) ≠ 1000 := by
  refine ⟨?_, ?_, by norm_num⟩
  · show jsOrRat none (targetCostPerPerson .economy) = 875
    norm_num [jsOrRat, targetCostPerPerson, budgetRange]
  · show jsOrRat (some 4000) (targetCostPerPerson .economy * 4) / 4 = 1000
    norm_num [jsOrRat]

/-- C8 (amended): whenever the response omits `perPersonCost`, the result
field is the budget-tier midpoint `targetCostPerPerson`; the identity
perPersonCost = totalCost / guestCount holds when the response also omits
`totalCost` (and the guest count is nonzero), but not in general. -/
theorem guestMenuCosts_spec (b : BudgetTier) (guestCount : ℚ) (parsedTotal : Option ℚ) :
    (guestMenuCosts b guestCount parsedTotal none).2 = targetCostPerPerson b ∧
    (guestCount ≠ 0 →
      (guestMenuCosts b guestCount none none).2 =
        (guestMenuCosts b guestCount none none).1 / guestCount) := by
  refine ⟨rfl, fun hgc => ?_⟩
  show targetCostPerPerson b = targetCostPerPerson b * guestCount / guestCount
  rw [mul_div_assoc, div_self hgc, mul_one]

/-- C8 witness: the amended statement at the standard tier with 4 guests. -/
theorem guestMenuCosts_spec_witness :
    (guestMenuCosts .standard 4 (some 9000) none).2 = targetCostPerPerson .standard ∧
    (guestMenuCosts .standard 4 none none).2 =
      (guestMenuCosts .standard 4 none none).1 / 4 :=
  ⟨(guestMenuCosts_spec .standard 4 (some 9000)).1,
   (guestMenuCosts_spec .standard 4 (some 9000)).2 (by norm_num)⟩

/-- C10: `incrementStat` adds exactly `amount` to the named field, sets
`lastUpdated` to the given current time, and leaves every other numeric
statistic field unchanged. -/
theorem incrementStat_frame (k : StatKey) (amount : ℚ) (now : String) (s : UserStats) :
    getStat k (incrementStat k amount now s) = getStat k s + amount ∧
    (incrementStat k amount now s).lastUpdated = now ∧
    (∀ k2 : StatKey, k2 ≠ k →
      getStat k2 (incrementStat k amount now s) = getStat k2 s) := by
  refine ⟨?_, rfl, ?_⟩
  · cases k <;> rfl
  · intro k2 hne
    cases k <;> cases k2 <;> first | rfl | exact absurd rfl hne

/-- C10 witness: incrementing money saved by 150 on the default baseline
leaves time saved unchanged. -/
theorem incrementStat_frame_witness :
    getStat .moneySaved (incrementStat .moneySaved 150 "t1" (defaultStats "t0")) =
      getStat .moneySaved (defaultStats "t0") + 150 ∧
    getStat .timeSaved (incrementStat .moneySaved 150 "t1" (defaultStats "t0")) =
      getStat .timeSaved (defaultStats "t0") :=
  ⟨(incrementStat_frame .moneySaved 150 "t1" (defaultStats "t0")).1,
   (incrementStat_frame .moneySaved 150 "t1" (defaultStats "t0")).2.2 .timeSaved (by decide)⟩

end MealMind
